import Mathlib

/-!
# Verification of the Property_Valuation tool functions

Shallow embedding of the pure computational core of `src/modules/tools.py`
(the real-estate "tool" functions) and proofs about it.

Modelling conventions, used throughout:

* Python numbers are modelled as exact rationals (`ℚ`); integer-valued
  fields that are only compared (bedroom counts, square feet in the MLS
  records, sale prices in the MLS records) are modelled as `ℤ` where that
  is exact.  Python's display rounding `round(x, n)` is presentational
  float rounding and is omitted: every modelled quantity is the exact
  value the formula computes.
* Optional dictionary keys accessed with `d.get(k)` / `d.get(k, default)`
  are modelled as `Option` fields; Python truthiness of a number (`0` and
  `0.0` are falsy, `None` is falsy) is modelled explicitly where the code
  relies on it.
* Wall-clock reads are parameters (`currentYear`, sale dates are given as
  day offsets from "now"); the process-wide random generator is a
  parameter (an oracle function from draw index to value).
* The transcendental operations `x ** y` (non-integer exponent) and
  `sqrt` have no exact rational counterpart; they are abstracted as
  oracle parameters (`pw`, `sqrtQ`).  No claim below depends on their
  values.
* Fallible code is modelled with explicit outcome types: a structured
  `{"error": ...}` return is the `error` constructor, an uncaught Python
  exception (e.g. `ZeroDivisionError`) is the `raised` constructor.
-/

/-! ## Comparable Sales Provider (`mls_integration`, tools.py lines 14-129) -/

/-- One record of the fixed simulated MLS comparable-sales table
(tools.py lines 41-81).  Only the fields the function reads are kept. -/
structure MlsComp where
  address : String
  sale_price : ℤ
  sqft : ℤ
  bedrooms : ℤ
  bathrooms : ℚ
  lot_size : ℚ
  year_built : ℤ
  condition : String
  days_on_market : ℤ
  price_per_sqft : ℚ
deriving DecidableEq, Repr

/-- The three literal comparable records hard-coded in `mls_integration`. -/
def mlsComparableSales : List MlsComp :=
  [ { address := "123 Main St, Sample City, ST 12345", sale_price := 450000,
      sqft := 2200, bedrooms := 3, bathrooms := 5/2, lot_size := 1/4,
      year_built := 2010, condition := "Good", days_on_market := 45,
      price_per_sqft := 20455/100 },
    { address := "456 Oak Ave, Sample City, ST 12345", sale_price := 485000,
      sqft := 2400, bedrooms := 4, bathrooms := 3, lot_size := 3/10,
      year_built := 2015, condition := "Excellent", days_on_market := 28,
      price_per_sqft := 20208/100 },
    { address := "789 Pine Rd, Sample City, ST 12345", sale_price := 420000,
      sqft := 2000, bedrooms := 3, bathrooms := 2, lot_size := 1/5,
      year_built := 2008, condition := "Fair", days_on_market := 67,
      price_per_sqft := 210 } ]

/-- Python truthiness of an optional integer argument: `None` is falsy and
so is `0` (`if min_sqft and ...` on tools.py lines 86-93). -/
def optTruthy (b : Option ℤ) : Bool :=
  b.getD 0 ≠ 0

/-- The comp-retention predicate of the filter loop (tools.py lines 85-94):
a comp is kept unless a truthy bound excludes it. -/
def mlsKeep (minSqft maxSqft minBedrooms maxBedrooms : Option ℤ) (c : MlsComp) : Bool :=
  !(optTruthy minSqft && c.sqft < minSqft.getD 0) &&
  !(optTruthy maxSqft && c.sqft > maxSqft.getD 0) &&
  !(optTruthy minBedrooms && c.bedrooms < minBedrooms.getD 0) &&
  !(optTruthy maxBedrooms && c.bedrooms > maxBedrooms.getD 0)

/-- Minimum of an integer list, 0 for the empty list (Python `min(...)` is
only reached on a non-empty list, tools.py line 101). -/
def listMinI : List ℤ → ℤ
  | [] => 0
  | x :: xs => xs.foldl min x

/-- Maximum of an integer list, 0 for the empty list (tools.py line 102). -/
def listMaxI : List ℤ → ℤ
  | [] => 0
  | x :: xs => xs.foldl max x

/-- The market statistics block of the `mls_integration` result
(tools.py lines 96-108 and 122-127). -/
structure MlsStats where
  total_comparables : ℕ
  average_price_per_sqft : ℚ
  average_days_on_market : ℚ
  price_min : ℤ
  price_max : ℤ
  price_median : ℤ
deriving DecidableEq, Repr

/-- The fields of the `mls_integration` return value that depend on the
inputs (the echoed search criteria and the timestamp are omitted). -/
structure MlsResult where
  comparable_sales : List MlsComp
  market_statistics : MlsStats
deriving DecidableEq, Repr

/-- `mls_integration` (tools.py lines 14-129): filter the fixed comp table
by the optional bounds, then compute aggregate statistics.  The median is
computed exactly as in the source: sort the sale prices and index at
`length // 2` (line 103). -/
def mls_integration (minSqft maxSqft minBedrooms maxBedrooms : Option ℤ) : MlsResult :=
  let filtered := mlsComparableSales.filter (mlsKeep minSqft maxSqft minBedrooms maxBedrooms)
  let stats :=
    if filtered.isEmpty then
      { total_comparables := 0, average_price_per_sqft := 0,
        average_days_on_market := 0, price_min := 0, price_max := 0,
        price_median := 0 }
    else
      let prices := filtered.map (·.sale_price)
      { total_comparables := filtered.length,
        average_price_per_sqft :=
          (filtered.map (·.price_per_sqft)).sum / (filtered.length : ℚ),
        average_days_on_market :=
          ((filtered.map (·.days_on_market)).sum : ℚ) / (filtered.length : ℚ),
        price_min := listMinI prices,
        price_max := listMaxI prices,
        price_median := (prices.insertionSort (· ≤ ·)).getD (filtered.length / 2) 0 }
  { comparable_sales := filtered, market_statistics := stats }

/-- Spec-side reading of a supplied-or-omitted minimum bound, following the
amended claim: an omitted bound, or a bound equal to 0 (falsy in Python),
imposes no constraint; a non-zero minimum must not exceed the value. -/
def minBoundRespected (b : Option ℤ) (v : ℤ) : Bool :=
  match b with
  | none => true
  | some m => m = 0 || m ≤ v

/-- Spec-side reading of a supplied-or-omitted maximum bound (see
`minBoundRespected`). -/
def maxBoundRespected (b : Option ℤ) (v : ℤ) : Bool :=
  match b with
  | none => true
  | some m => m = 0 || v ≤ m

/-- Conventional median of an integer list (average the two middle
elements for even length) — the statistic the spec calls "the
conventional (averaged) median", for comparison with the code's
`sorted[len // 2]`. -/
def conventionalMedian (l : List ℤ) : ℚ :=
  let s := l.insertionSort (· ≤ ·)
  let n := s.length
  if n % 2 = 1 then (s.getD (n / 2) 0 : ℚ)
  else ((s.getD (n / 2 - 1) 0 : ℚ) + (s.getD (n / 2) 0 : ℚ)) / 2

/-! ## Automated Valuation Engine (`avm_engine`, tools.py lines 137-341) -/

/-- A comparable-sale record as consumed by `avm_engine`.  All numeric keys
read with `comp.get(k, 0)` are modelled as plain fields defaulting to 0 (an
absent key and a 0 value are indistinguishable to every `.get`-based read,
and both are falsy where the code tests truthiness).  `year_built` is read
with `comp.get("year_built", current_year)`, so it stays optional.
`price_per_sqft` is truthiness-tested, so it stays optional.  `sale_date`
is modelled as the already-parsed offset `(now - date).days`; a missing or
unparseable date, which the code replaces by `datetime.now()` (tools.py
lines 183-190), is `none` and contributes an offset of 0 days. -/
structure AvmComp where
  sale_price : ℚ := 0
  sqft : ℚ := 0
  bedrooms : ℚ := 0
  bathrooms : ℚ := 0
  lot_size : ℚ := 0
  year_built : Option ℚ := none
  price_per_sqft : Option ℚ := none
  sale_daysAgo : Option ℚ := none
deriving DecidableEq, Repr

/-- Method-1 price-per-sqft contribution of one comp (tools.py lines
193-198): the direct `price_per_sqft` if truthy, else `sale_price / sqft`
if both are truthy, else nothing. -/
def avmPpsfValue (c : AvmComp) : Option ℚ :=
  if c.price_per_sqft.getD 0 ≠ 0 then some (c.price_per_sqft.getD 0)
  else if c.sale_price ≠ 0 ∧ c.sqft ≠ 0 then some (c.sale_price / c.sqft)
  else none

/-- All usable price-per-sqft figures of a comp list (tools.py lines 193-198). -/
def avmPpsfValues (comps : List AvmComp) : List ℚ :=
  comps.filterMap avmPpsfValue

/-- Condition multiplier table (tools.py lines 209-214). -/
def condition_multipliers : List (String × ℚ) :=
  [("Excellent", 11/10), ("Good", 1), ("Fair", 9/10), ("Poor", 8/10)]

/-- Average of `(now - sale_date).days` over the comp list (tools.py lines
224-225); the comp list is non-empty wherever this is used. -/
def avmAvgDaysSinceSale (comps : List AvmComp) : ℚ :=
  (comps.map (fun c => c.sale_daysAgo.getD 0)).sum / (comps.length : ℚ)

/-- Method-3 adjusted price of one comp (tools.py lines 255-271). -/
def avmAdjustedPrice (currentYear avg_ppsf property_sqft bedrooms bathrooms lot_size age : ℚ)
    (c : AvmComp) : ℚ :=
  c.sale_price + (property_sqft - c.sqft) * avg_ppsf + (bedrooms - c.bedrooms) * 5000
    + (bathrooms - c.bathrooms) * 10000 + (lot_size - c.lot_size) * 20000
    + (age - (currentYear - c.year_built.getD currentYear)) * (-500)

/-- The confidence score of `avm_engine` (tools.py lines 287-298): the sum
of four independently-tested bonuses.  Note the recency test is
`if avg_days_since_sale and avg_days_since_sale < 180`, so an average of
exactly 0 days (falsy in Python) earns no bonus. -/
def avmConfidenceScore (property_sqft bedrooms : ℚ) (avg_days : ℚ)
    (comps : List AvmComp) : ℚ :=
  (if 3 ≤ comps.length then (3/10 : ℚ) else 0)
  + (if avg_days ≠ 0 ∧ avg_days < 180 then (2/10 : ℚ) else 0)
  + (if 2 ≤ (comps.filter (fun c => |c.sqft - property_sqft| / property_sqft < 1/5)).length
      then (3/10 : ℚ) else 0)
  + (if 1 ≤ (comps.filter (fun c => c.bedrooms = bedrooms)).length then (2/10 : ℚ) else 0)

/-- The input-dependent fields of a successful `avm_engine` return value
(tools.py lines 300-341; echoed inputs and the timestamp are omitted). -/
structure AvmResult where
  price_per_sqft_valuation : ℚ
  avg_price_per_sqft : ℚ
  condition_adj : ℚ
  age_adj : ℚ
  market_adj : ℚ
  regression_valuation : ℚ
  adjusted_prices : List ℚ
  adjusted_sales_valuation : ℚ
  final_valuation : ℚ
  confidence_score : ℚ
  avg_days_since_sale : ℚ
  comparable_count : ℕ
deriving DecidableEq, Repr

/-- Outcome of a call to `avm_engine`: a structured `{"error": ...}`
payload, an uncaught exception, or a result dictionary. -/
inductive AvmOutcome where
  | error (msg : String)
  | raised
  | ok (r : AvmResult)
deriving DecidableEq, Repr

/-- Whether an outcome is a structured error payload. -/
def AvmOutcome.isErrorPayload : AvmOutcome → Bool
  | .error _ => true
  | _ => false

/-- The confidence score of a successful outcome. -/
def AvmOutcome.confidenceValue : AvmOutcome → Option ℚ
  | .ok r => some r.confidence_score
  | _ => none

/-- `avm_engine` (tools.py lines 137-341).  Parameters: `currentYear` is
the wall-clock year read at line 218, `pw` is the abstracted real power
`x ** y` used for the market adjustment at line 226; the remaining
parameters follow the Python signature (`property_address` is only echoed
into the output and is dropped).  The guard order follows the source: the
two error payloads (lines 165-166 and 200-201) are tested before any
arithmetic; a subject `property_sqft` of 0 makes the confidence test at
line 293 divide by zero, an uncaught `ZeroDivisionError` (`raised`). -/
def avm_engine (currentYear : ℚ) (pw : ℚ → ℚ → ℚ)
    (property_sqft bedrooms bathrooms lot_size year_built : ℚ) (condition : String)
    (comps : List AvmComp) (market_trend : ℚ := 2/100) : AvmOutcome :=
  if comps.isEmpty then .error ("No comparable sales data provided")
  else
    let ppsfValues := avmPpsfValues comps
    if ppsfValues.isEmpty then .error ("No valid price per square foot data available")
    else
      let avg_ppsf := ppsfValues.sum / (ppsfValues.length : ℚ)
      let condition_adj := ((condition_multipliers.lookup condition).getD 1 : ℚ)
      let age := currentYear - year_built
      let age_adj := max (85/100) (1 - age * (5/1000))
      let avg_days := avmAvgDaysSinceSale comps
      let market_adj := pw (1 + market_trend) (avg_days / 365)
      let m1 := property_sqft * avg_ppsf * condition_adj * age_adj * market_adj
      let m2 := 50000 + 150 * property_sqft + 5000 * bedrooms + 10000 * bathrooms
        + 20000 * lot_size + (-500) * age
      let adjusted := comps.map
        (avmAdjustedPrice currentYear avg_ppsf property_sqft bedrooms bathrooms lot_size age)
      let m3 := adjusted.sum / (adjusted.length : ℚ)
      let final := m1 * (4/10) + m2 * (3/10) + m3 * (3/10)
      if property_sqft = 0 then .raised
      else
        .ok { price_per_sqft_valuation := m1, avg_price_per_sqft := avg_ppsf,
              condition_adj := condition_adj, age_adj := age_adj, market_adj := market_adj,
              regression_valuation := m2, adjusted_prices := adjusted,
              adjusted_sales_valuation := m3, final_valuation := final,
              confidence_score := avmConfidenceScore property_sqft bedrooms avg_days comps,
              avg_days_since_sale := avg_days, comparable_count := comps.length }

/-- Modelled from the spec's words (claim C1), for comparison with the
code's `avmConfidenceScore`: "+0.3 if at least 3 comps, +0.2 if average
days since comp sale is under 180, +0.3 if at least 2 comps are within 20%
of subject sqft, +0.2 if at least 1 comp matches the subject bedroom count
exactly".  It differs from the code in the recency test: the spec asks
only `avg < 180`, the code additionally requires `avg` to be truthy. -/
def confidenceScoreSpec (property_sqft bedrooms : ℚ) (comps : List AvmComp) : ℚ :=
  (if 3 ≤ comps.length then (3/10 : ℚ) else 0)
  + (if avmAvgDaysSinceSale comps < 180 then (2/10 : ℚ) else 0)
  + (if 2 ≤ (comps.filter (fun c => |c.sqft - property_sqft| / property_sqft < 1/5)).length
      then (3/10 : ℚ) else 0)
  + (if 1 ≤ (comps.filter (fun c => c.bedrooms = bedrooms)).length then (2/10 : ℚ) else 0)

/-- The set of confidence values the claim C1 asserts to be the only
reachable ones. -/
def claimedConfidenceValues : List ℚ := [0, 2/10, 3/10, 5/10, 7/10, 9/10, 1]

/-! ## Market Trend Analyzer (`market_trend_analyzer`, tools.py lines 367-449) -/

/-- One point of the synthesized monthly price series (tools.py lines
389-393).  The date is kept as the day offset from the current date:
point `i` of the loop carries `month_date = now - 30*i days`. -/
structure TrendPoint where
  daysAgo : ℤ
  price : ℚ
  price_index : ℚ
deriving DecidableEq, Repr

/-- The 12-element seasonal multiplier table (tools.py line 378). -/
def seasonal_factors : List ℚ :=
  [95/100, 92/100, 98/100, 105/100, 108/100, 110/100, 112/100,
   108/100, 105/100, 102/100, 98/100, 95/100]

/-- The generation loop of `market_trend_analyzer` (tools.py lines
380-393), producing `price_data` before slicing.  `pw` abstracts the real
power `1.02 ** (i / 12.0)`, `noise` is the per-point Gaussian draw
`np.random.normal(1.0, 0.02)`, and `monthOf i` is the calendar month
(0-based) of `now - 30*i days`, a wall-clock quantity.  Point `i = 0` is
the most recent (offset 0 days); offsets grow with `i`. -/
def trendSeries (pw : ℚ → ℚ → ℚ) (noise : ℕ → ℚ) (monthOf : ℕ → Fin 12)
    (analysis_period : ℕ) (include_seasonal : Bool) : List TrendPoint :=
  (List.range analysis_period).map (fun (i : ℕ) =>
    let trend_factor := pw (102/100) ((i : ℚ) / 12)
    let seasonal_factor := if include_seasonal then seasonal_factors.getD (monthOf i) 1 else 1
    let price := 400000 * trend_factor * seasonal_factor * noise i
    { daysAgo := 30 * (i : ℤ), price := price, price_index := price / 400000 * 100 })

/-- Mean of a rational list (0 for the empty list; division is total on `ℚ`). -/
def meanQ (l : List ℚ) : ℚ :=
  l.sum / (l.length : ℚ)

/-- Population variance of a rational list, as `np.var`/`np.std` use. -/
def varianceQ (l : List ℚ) : ℚ :=
  (l.map (fun v => (v - meanQ l) ^ 2)).sum / (l.length : ℚ)

/-- Ordinary-least-squares slope of `y` against `x = 0, 1, ...`, the
degree-1 `np.polyfit` of tools.py line 399, in closed form. -/
def olsSlope (y : List ℚ) : ℚ :=
  let n := (y.length : ℚ)
  let xs := (List.range y.length).map (fun i => (i : ℚ))
  let sx := xs.sum
  let sy := y.sum
  let sxy := (List.zip xs y).map (fun p => p.1 * p.2) |>.sum
  let sxx := (xs.map (fun v => v ^ 2)).sum
  (n * sxy - sx * sy) / (n * sxx - sx ^ 2)

/-- The input-dependent fields of the `market_trend_analyzer` result
(tools.py lines 422-446).  The per-calendar-month `seasonal_analysis`
block (lines 407-418) only regroups `price_index` values by month and is
not referenced by any claim; it is omitted. -/
structure TrendResult where
  price_data : List TrendPoint
  slope : ℚ
  monthly_growth_rate : ℚ
  annual_growth_rate : ℚ
  volatility : ℚ
  cycle_phase : String
  forecast_3 : ℚ
  forecast_6 : ℚ
  forecast_12 : ℚ
deriving DecidableEq, Repr

/-- `market_trend_analyzer` (tools.py lines 367-449).  `sqrtQ` abstracts
`np.sqrt`/the square root inside `np.std`.  The returned `price_data` is
the Python slice `price_data[-12:]` (line 439): the last 12 generated
points, i.e. `List.drop (length - 12)`. -/
def market_trend_analyzer (pw : ℚ → ℚ → ℚ) (noise : ℕ → ℚ) (monthOf : ℕ → Fin 12)
    (sqrtQ : ℚ → ℚ) (analysis_period : ℕ := 24) (include_seasonal : Bool := true) :
    TrendResult :=
  let price_data := trendSeries pw noise monthOf analysis_period include_seasonal
  let prices := price_data.map (·.price)
  let slope := olsSlope prices
  let monthly_growth := slope / meanQ prices
  let annual_growth := monthly_growth * 12
  let returns := (List.zip prices.tail prices).map (fun p => (p.1 - p.2) / p.2)
  let volatility := if returns.isEmpty then 0 else sqrtQ (varianceQ returns) * sqrtQ 12
  let lastPrice := prices.getLastD 0
  { price_data := price_data.drop (price_data.length - 12),
    slope := slope,
    monthly_growth_rate := monthly_growth,
    annual_growth_rate := annual_growth,
    volatility := volatility,
    cycle_phase :=
      if annual_growth > 3/100 then ("Expansion")
      else if annual_growth > 0 then ("Stable") else ("Contraction"),
    forecast_3 := lastPrice * (1 + monthly_growth * 3),
    forecast_6 := lastPrice * (1 + monthly_growth * 6),
    forecast_12 := lastPrice * (1 + annual_growth) }

/-! ## Market Monitor (`market_monitor`, tools.py lines 458-594) -/

/-- The hard-coded indicator values of the simulated monitoring data
(tools.py lines 477-518), restricted to the numeric fields the risk
assessment reads. -/
structure MonitoringIndicators where
  unemployment_rate : ℚ
  gdp_growth : ℚ
  inflation_rate : ℚ
  interest_rates : ℚ
  consumer_confidence : ℚ
  new_construction_permits : ℤ
  property_tax_changes : ℚ
deriving DecidableEq, Repr

/-- The literal indicator values of tools.py lines 477-518. -/
def monitoringIndicators : MonitoringIndicators :=
  { unemployment_rate := 38/10, gdp_growth := 21/10, inflation_rate := 25/10,
    interest_rates := 525/100, consumer_confidence := 1085/10,
    new_construction_permits := 45, property_tax_changes := 0 }

/-- An alert entry of the `market_monitor` output (tools.py lines 556-564). -/
structure MonitorAlert where
  category : String
  alert_type : String
  description : String
  impact : String
  date : String
  severity : String
deriving DecidableEq, Repr

/-- The single static alert of the simulated data: the `development`
category's "New Development" entry (tools.py lines 493-500); emitted with
`category = monitor_type.title()` and severity "Medium" since its impact
is "Positive" (lines 557-563). -/
def developmentAlert : MonitorAlert :=
  { category := "Development", alert_type := "New Development",
    description := "New shopping center approved in downtown area",
    impact := "Positive", date := "2024-01-15", severity := "Medium" }

/-- The input-dependent fields of the `market_monitor` result (tools.py
lines 577-594). -/
structure MonitorResult where
  monitored_categories : List String
  risk_score : ℚ
  risk_factors : List String
  overall_risk : String
  alerts : List MonitorAlert
  health_score : ℚ
  health_status : String
  recommendation : String
deriving DecidableEq, Repr

/-- `market_monitor` (tools.py lines 458-594).  The risk assessment
(lines 521-540) compares the hard-coded indicators against fixed
thresholds; the alert loop (lines 553-564) keeps the per-category alerts
of the requested `monitor_types` (only `development` has one).
`alert_threshold` is accepted and, as in the source, never read. -/
def market_monitor (location : String)
    (monitor_types : List String := ["economic", "development", "regulatory"])
    (alert_threshold : ℚ := 5/100) : MonitorResult :=
  let m := monitoringIndicators
  let risk_factors :=
    (if m.unemployment_rate > 5 then ["High unemployment rate"] else [])
    ++ (if m.interest_rates > 6 then ["High interest rates"] else [])
    ++ (if m.new_construction_permits > 50
        then ["High construction activity - potential oversupply"] else [])
    ++ (if m.property_tax_changes > 5/100
        then ["Significant property tax increase"] else [])
  let risk_score :=
    (if m.unemployment_rate > 5 then (3/10 : ℚ) else 0)
    + (if m.interest_rates > 6 then (2/10 : ℚ) else 0)
    + (if m.new_construction_permits > 50 then (2/10 : ℚ) else 0)
    + (if m.property_tax_changes > 5/100 then (3/10 : ℚ) else 0)
  let alerts := monitor_types.flatMap
    (fun t => if t = "development" then [developmentAlert] else [])
  let health_score := 100 - risk_score * 100
  { monitored_categories := monitor_types,
    risk_score := risk_score,
    risk_factors := risk_factors,
    overall_risk :=
      if risk_score < 3/10 then ("Low")
      else if risk_score < 6/10 then ("Medium") else ("High"),
    alerts := alerts,
    health_score := health_score,
    health_status :=
      if health_score ≥ 80 then ("Excellent")
      else if health_score ≥ 60 then ("Good")
      else if health_score ≥ 40 then ("Fair") else ("Poor"),
    recommendation :=
      if health_score < 60 then ("Monitor closely") else ("Continue monitoring") }

/-! ## Comparable Adjustment Engine (`comps_analyzer`, tools.py lines 602-753) -/

/-- Subject-property feature mapping for `comps_analyzer`: every feature is
tested with `"k" in subject_property` before use, so all are optional. -/
structure CompsSubject where
  sqft : Option ℚ := none
  bedrooms : Option ℚ := none
  bathrooms : Option ℚ := none
  lot_size : Option ℚ := none
  year_built : Option ℚ := none
  condition : Option String := none
deriving DecidableEq, Repr

/-- A comp record for `comps_analyzer`.  The feature keys are
presence-tested and optional; `sale_price` is direct-indexed at tools.py
line 705 (`comp["sale_price"]`), so it is modelled as a required field
(the `.get("sale_price", 0)` reads at lines 692 and 697 agree on a
present key). -/
structure CompsComp where
  sqft : Option ℚ := none
  bedrooms : Option ℚ := none
  bathrooms : Option ℚ := none
  lot_size : Option ℚ := none
  year_built : Option ℚ := none
  condition : Option String := none
  sale_price : ℚ := 0
deriving DecidableEq, Repr

/-- Adjustment-factor table for `comps_analyzer`, with the per-key
fallbacks of the source (`factors.get("sqft", 150)`, ...).  The default
table's `garage`/`pool`/`view` entries are never read by the computation
and are omitted. -/
structure AdjFactors where
  sqft : Option ℚ := none
  bedroom : Option ℚ := none
  bedrooms : Option ℚ := none
  bathroom : Option ℚ := none
  lot_size : Option ℚ := none
  age : Option ℚ := none
  condition : Option (List (String × ℚ)) := none
deriving DecidableEq, Repr

/-- The condition-to-multiplier lookup used both as the default table's
`condition` entry and as the in-loop fallback (tools.py lines 628 and 690). -/
def defaultConditionFactors : List (String × ℚ) :=
  [("Excellent", 1/10), ("Good", 0), ("Fair", -1/10), ("Poor", -2/10)]

/-- The default adjustment factors (tools.py lines 622-632). -/
def default_factors : AdjFactors :=
  { sqft := some 150, bedroom := some 5000, bathroom := some 10000,
    lot_size := some 20000, age := some (-500),
    condition := some defaultConditionFactors }

/-- The per-comp adjustment list of `comps_analyzer` (tools.py lines
640-694), in the source's insertion order.  An adjustment is produced only
when the feature is present on both sides; the condition adjustment
additionally needs both condition labels in the lookup, and is scaled by
the comp's sale price. -/
def compAdjustments (currentYear : ℚ) (f : AdjFactors) (s : CompsSubject) (c : CompsComp) :
    List (String × ℚ) :=
  (match s.sqft, c.sqft with
   | some a, some b => [("sqft", (a - b) * f.sqft.getD 150)]
   | _, _ => [])
  ++ (match s.bedrooms, c.bedrooms with
   | some a, some b => [("bedrooms", (a - b) * (f.bedroom.getD (f.bedrooms.getD 5000)))]
   | _, _ => [])
  ++ (match s.bathrooms, c.bathrooms with
   | some a, some b => [("bathrooms", (a - b) * f.bathroom.getD 10000)]
   | _, _ => [])
  ++ (match s.lot_size, c.lot_size with
   | some a, some b => [("lot_size", (a - b) * f.lot_size.getD 20000)]
   | _, _ => [])
  ++ (match s.year_built, c.year_built with
   | some a, some b =>
      [("age", ((currentYear - a) - (currentYear - b)) * f.age.getD (-500))]
   | _, _ => [])
  ++ (match s.condition, c.condition with
   | some sc, some cc =>
      let condF := f.condition.getD defaultConditionFactors
      match condF.lookup sc, condF.lookup cc with
      | some x, some y => [("condition", (x - y) * c.sale_price)]
      | _, _ => []
   | _, _ => [])

/-- One entry of `analyzed_comparables` (tools.py lines 700-706). -/
structure AnalyzedComp where
  original : CompsComp
  adjustments : List (String × ℚ)
  total_adjustment : ℚ
  adjusted_sale_price : ℚ
  adjustment_percentage : ℚ
deriving DecidableEq, Repr

/-- Minimum of a rational list, 0 for the empty list. -/
def listMinQ : List ℚ → ℚ
  | [] => 0
  | x :: xs => xs.foldl min x

/-- Maximum of a rational list, 0 for the empty list. -/
def listMaxQ : List ℚ → ℚ
  | [] => 0
  | x :: xs => xs.foldl max x

/-- `np.median`: sort and average the two middle elements for even length
(tools.py line 739) — the conventional median, unlike `mls_integration`. -/
def npMedianQ (l : List ℚ) : ℚ :=
  let s := l.insertionSort (· ≤ ·)
  let n := s.length
  if n % 2 = 1 then s.getD (n / 2) 0
  else (s.getD (n / 2 - 1) 0 + s.getD (n / 2) 0) / 2

/-- The input-dependent fields of a successful `comps_analyzer` result
(tools.py lines 730-753). -/
structure CompsResult where
  analyzed_comparables : List AnalyzedComp
  final_valuation : ℚ
  price_min : ℚ
  price_max : ℚ
  price_median : ℚ
  std_deviation : ℚ
  coefficient_of_variation : ℚ
  quality_factors : List String
  confidence_score : ℚ
  recommendation : String
deriving DecidableEq, Repr

/-- Outcome of a call to `comps_analyzer`. -/
inductive CompsOutcome where
  | error (msg : String)
  | raised
  | ok (r : CompsResult)
deriving DecidableEq, Repr

/-- `comps_analyzer` (tools.py lines 602-753).  `sqrtQ` abstracts the
square root inside `np.std`.  The `adjustment_percentage` of each comp
divides by `comp["sale_price"]` with no guard (line 705): a comp whose
sale price is 0 makes the loop raise `ZeroDivisionError` (`raised`).
`adjustment_factors or default_factors` (line 634) is modelled by
`Option.getD` (an all-`none` custom table behaves like Python's falsy
empty dict: every read falls back to the same per-key defaults). -/
def comps_analyzer (currentYear : ℚ) (sqrtQ : ℚ → ℚ) (subject_property : CompsSubject)
    (comparable_sales : List CompsComp) (adjustment_factors : Option AdjFactors := none) :
    CompsOutcome :=
  if comparable_sales.isEmpty then .error ("No comparable sales provided")
  else if comparable_sales.any (fun c => c.sale_price = 0) then .raised
  else
    let f := adjustment_factors.getD default_factors
    let analyzed := comparable_sales.map (fun c =>
      let adjs := compAdjustments currentYear f subject_property c
      let total := (adjs.map (·.2)).sum
      { original := c, adjustments := adjs, total_adjustment := total,
        adjusted_sale_price := c.sale_price + total,
        adjustment_percentage := total / c.sale_price * 100 })
    let adjusted_prices := analyzed.map (·.adjusted_sale_price)
    let final := adjusted_prices.sum / (adjusted_prices.length : ℚ)
    let std := sqrtQ (varianceQ adjusted_prices)
    let cov := std / final
    let quality :=
      (if 3 ≤ comparable_sales.length then ["Sufficient comparables"] else [])
      ++ (if cov < 1/10 then ["Low price variance"] else [])
      ++ (if analyzed.all (fun a => |a.adjustment_percentage| < 20)
          then ["Reasonable adjustments"] else [])
    let conf := (quality.length : ℚ) / 3
    .ok { analyzed_comparables := analyzed,
          final_valuation := final,
          price_min := listMinQ adjusted_prices,
          price_max := listMaxQ adjusted_prices,
          price_median := npMedianQ adjusted_prices,
          std_deviation := std,
          coefficient_of_variation := cov,
          quality_factors := quality,
          confidence_score := conf,
          recommendation :=
            if conf > 7/10 then ("High confidence")
            else if conf > 4/10 then ("Medium confidence") else ("Low confidence") }

/-! ## Property Condition Assessor (`property_condition_assessor`,
tools.py lines 761-918) -/

/-- The 8 fixed building systems with `(base_score, age_factor, lifespan)`
(tools.py lines 799-808). -/
def pcaSystems : List (String × ℚ × ℚ × ℚ) :=
  [ ("structural", 95, 3/2, 100),
    ("electrical", 90, 2, 30),
    ("plumbing", 85, 5/2, 40),
    ("hvac", 80, 3, 20),
    ("roofing", 90, 5/2, 25),
    ("exterior", 85, 2, 30),
    ("interior", 80, 3/2, 20),
    ("appliances", 75, 4, 15) ]

/-- Condition score of one system (tools.py lines 816-817):
`age_penalty = min(property_age * age_factor, 50)`,
`condition_score = max(0, base_score - age_penalty)`. -/
def systemConditionScore (property_age base_score age_factor : ℚ) : ℚ :=
  max 0 (base_score - min (property_age * age_factor) 50)

/-- The per-system condition scores of `property_condition_assessor`
(tools.py lines 814-818). -/
def condition_scores (property_age : ℚ) : List (String × ℚ) :=
  pcaSystems.map (fun p => (p.1, systemConditionScore property_age p.2.1 p.2.2.1))

/-- The deterministic fields of the `property_condition_assessor` result
(tools.py lines 862-893).  The maintenance/urgent/upgrade item lists
(lines 821-860) only bucket these same scores and attach
`np.random.randint` cost draws; no claim concerns them and they are
omitted. -/
structure PcaResult where
  system_scores : List (String × ℚ)
  overall_condition_score : ℚ
  condition_rating : String
deriving DecidableEq, Repr

/-- `property_condition_assessor` (tools.py lines 761-918), deterministic
part: per-system scores, their unweighted mean, and the rating bucket. -/
def property_condition_assessor (property_age : ℚ) : PcaResult :=
  let scores := condition_scores property_age
  let overall := (scores.map (·.2)).sum / (scores.length : ℚ)
  { system_scores := scores,
    overall_condition_score := overall,
    condition_rating :=
      if overall ≥ 90 then ("Excellent")
      else if overall ≥ 80 then ("Good")
      else if overall ≥ 70 then ("Fair")
      else if overall ≥ 60 then ("Poor") else ("Critical") }

/-! ## Maintenance Cost Estimator (`maintenance_cost_estimator`,
tools.py lines 1073-1251) -/

/-- One entry of the static cost database (tools.py lines 1094-1115). -/
structure MceCostData where
  base_cost : ℚ
  per_sqft : Bool
  complexity_factor : ℚ
deriving DecidableEq, Repr

/-- The ~20-entry static cost table, in source (dict insertion) order. -/
def cost_database : List (String × MceCostData) :=
  [ ("roof_repair", ⟨300, true, 12/10⟩),
    ("roof_replacement", ⟨500, true, 15/10⟩),
    ("hvac_repair", ⟨800, false, 1⟩),
    ("hvac_replacement", ⟨8000, false, 13/10⟩),
    ("plumbing_repair", ⟨400, false, 11/10⟩),
    ("electrical_repair", ⟨600, false, 12/10⟩),
    ("flooring_repair", ⟨8, true, 1⟩),
    ("flooring_replacement", ⟨12, true, 11/10⟩),
    ("painting_interior", ⟨3, true, 1⟩),
    ("painting_exterior", ⟨2, true, 12/10⟩),
    ("window_replacement", ⟨500, false, 1⟩),
    ("appliance_repair", ⟨300, false, 1⟩),
    ("appliance_replacement", ⟨1200, false, 1⟩),
    ("landscaping", ⟨5, true, 1⟩),
    ("driveway_repair", ⟨8, true, 11/10⟩),
    ("fence_repair", ⟨15, true, 1⟩),
    ("deck_repair", ⟨20, true, 12/10⟩),
    ("basement_waterproofing", ⟨10, true, 15/10⟩),
    ("insulation_upgrade", ⟨2, true, 1⟩),
    ("energy_efficiency", ⟨4, true, 11/10⟩) ]

/-- Location cost multipliers (tools.py lines 1118-1124); the code always
looks up `"suburban"` regardless of the `location` argument (line 1158). -/
def location_multipliers : List (String × ℚ) :=
  [("urban", 13/10), ("suburban", 1), ("rural", 8/10),
   ("high_cost_area", 3/2), ("low_cost_area", 7/10)]

/-- Substring containment, Python's `needle in hay`. -/
def strContainsSub (hay needle : String) : Bool :=
  hay.toList.tails.any (fun t => needle.toList.isPrefixOf t)

/-- `item.lower().replace(" ", "_")` (tools.py line 1135). -/
def mceNormalize (s : String) : String :=
  s.toLower.replace (" ") ("_")

/-- The table-matching loop (tools.py lines 1139-1142): the first key that
is a substring of the normalized item, or any of whose underscore-split
words is a substring of it, wins. -/
def mceMatch (item_lower : String) : Option MceCostData :=
  (cost_database.find? (fun kv =>
      strContainsSub item_lower kv.1
      || (kv.1.splitOn ("_")).any (fun w => strContainsSub item_lower w))).map (·.2)

/-- One entry of `cost_estimates` (tools.py lines 1167-1177). -/
structure MceEstimate where
  item : String
  base_cost : ℚ
  complexity_factor : ℚ
  location_multiplier : ℚ
  estimated_cost : ℚ
  cost_low : ℚ
  cost_high : ℚ
deriving DecidableEq, Repr

/-- Cost estimate for the `i`-th maintenance item (tools.py lines
1133-1180).  `variance i` is the `np.random.uniform(0.8, 1.2)` draw for
that item. -/
def mceEstimate (variance : ℕ → ℚ) (property_sqft property_age : ℚ) (i : ℕ)
    (item : String) : MceEstimate :=
  let cost_data := (mceMatch (mceNormalize item)).getD ⟨500, false, 1⟩
  let base_cost := if cost_data.per_sqft then cost_data.base_cost * property_sqft
    else cost_data.base_cost
  let age_complexity := 1 + property_age * (1/100)
  let complexity_factor := cost_data.complexity_factor * age_complexity
  let location_multiplier := (location_multipliers.lookup ("suburban")).getD 1
  let final_cost := base_cost * complexity_factor * location_multiplier * variance i
  { item := item, base_cost := base_cost, complexity_factor := complexity_factor,
    location_multiplier := location_multiplier, estimated_cost := final_cost,
    cost_low := final_cost * (8/10), cost_high := final_cost * (12/10) }

/-- One entry of the prioritization lists (tools.py lines 1186-1207). -/
structure McePriorityItem where
  item : String
  priority : String
  timeline : String
deriving DecidableEq, Repr

/-- The input-dependent fields of a successful `maintenance_cost_estimator`
result (tools.py lines 1218-1251). -/
structure MceResult where
  cost_estimates : List MceEstimate
  total_estimated_cost : ℚ
  total_cost_low : ℚ
  total_cost_high : ℚ
  number_of_items : ℕ
  average_cost_per_item : ℚ
  high_priority : List McePriorityItem
  medium_priority : List McePriorityItem
  low_priority : List McePriorityItem
  financing_options : List String
deriving DecidableEq, Repr

/-- Outcome of a call to `maintenance_cost_estimator`. -/
inductive MceOutcome where
  | error (msg : String)
  | raised
  | ok (r : MceResult)
deriving DecidableEq, Repr

/-- Whether an outcome is a structured error payload. -/
def MceOutcome.isErrorPayload : MceOutcome → Bool
  | .error _ => true
  | _ => false

/-- `maintenance_cost_estimator` (tools.py lines 1073-1251).  The summary
divides by `len(maintenance_items)` with no guard (line 1234): an empty
item list raises `ZeroDivisionError` (`raised`) after the (empty) estimate
loop.  The `location` argument is accepted and, as in the source, never
influences the multiplier. -/
def maintenance_cost_estimator (variance : ℕ → ℚ) (property_address : String)
    (maintenance_items : List String) (property_sqft property_age : ℚ)
    (location : String) : MceOutcome :=
  let estimates := maintenance_items.enum.map
    (fun p => mceEstimate variance property_sqft property_age p.1 p.2)
  let total := (estimates.map (·.estimated_cost)).sum
  if maintenance_items.length = 0 then .raised
  else
    let priorities := estimates.map (fun e =>
      if e.estimated_cost > 5000 then
        ({ item := e.item, priority := "High",
           timeline := "Immediate (0-3 months)" } : McePriorityItem)
      else if e.estimated_cost > 2000 then
        { item := e.item, priority := "Medium", timeline := "Short-term (3-6 months)" }
      else
        { item := e.item, priority := "Low", timeline := "Long-term (6-12 months)" })
    .ok { cost_estimates := estimates,
          total_estimated_cost := total,
          total_cost_low := total * (8/10),
          total_cost_high := total * (12/10),
          number_of_items := maintenance_items.length,
          average_cost_per_item := total / (maintenance_items.length : ℚ),
          high_priority := priorities.filter (fun p => p.priority = "High"),
          medium_priority := priorities.filter (fun p => p.priority = "Medium"),
          low_priority := priorities.filter (fun p => p.priority = "Low"),
          financing_options :=
            (if total > 10000 then ["Consider home equity loan for major repairs"] else [])
            ++ (if total > 5000 then ["Personal loan or credit line for moderate repairs"] else [])
            ++ (if total < 5000 then ["Cash payment or credit card for minor repairs"] else []) }

/-! ## Sample inputs used by concrete counterexamples and witnesses -/

/-- A single comp: 5000 sqft (far from any ~1000 sqft subject), 3 bedrooms,
sold 30 days ago, direct price-per-sqft 100. -/
def avmSampleComp : AvmComp :=
  { sale_price := 500000, sqft := 5000, bedrooms := 3, price_per_sqft := some 100,
    sale_daysAgo := some 30 }

/-- The same comp sold today (0 days ago), making the average recency 0. -/
def avmSampleCompToday : AvmComp :=
  { sale_price := 500000, sqft := 5000, bedrooms := 3, price_per_sqft := some 100,
    sale_daysAgo := some 0 }

/-! ## Theorems -/

/-- Claim C10: for every input (any location, monitor_types list and
alert_threshold), `market_monitor` returns risk_score 0, an empty
risk_factors list, overall risk "Low", a market-health score of 100 and
health status "Excellent": the hard-coded indicator values never exceed
any of the fixed risk thresholds. -/
theorem market_monitor_static (location : String) (monitor_types : List String)
    (alert_threshold : ℚ) :
    (market_monitor location monitor_types alert_threshold).risk_score = 0 ∧
    (market_monitor location monitor_types alert_threshold).risk_factors = [] ∧
    (market_monitor location monitor_types alert_threshold).overall_risk = "Low" ∧
    (market_monitor location monitor_types alert_threshold).health_score = 100 ∧
    (market_monitor location monitor_types alert_threshold).health_status = "Excellent" := by
  norm_num [market_monitor, monitoringIndicators]

/-- Claim C8: for every property_age (any magnitude, here any rational),
each of the 8 per-system condition scores is ≥ 0, and each score is
exactly `max 0 (base - min (age * rate) 50)`. -/
theorem condition_scores_floor (property_age : ℚ) :
    (∀ p ∈ condition_scores property_age, 0 ≤ p.2) ∧
    condition_scores property_age =
      pcaSystems.map (fun s => (s.1, max 0 (s.2.1 - min (property_age * s.2.2.1) 50))) := by
  constructor
  · intro p hp
    rw [condition_scores, List.mem_map] at hp
    obtain ⟨s, _, rfl⟩ := hp
    exact le_max_left 0 _
  · rfl

/-- Witness for C8: the structural score at age 10 is 80, and it is
non-negative by the theorem. -/
theorem condition_scores_floor_witness : (0:ℚ) ≤ (("structural", (80:ℚ))).2 :=
  (condition_scores_floor 10).1 ("structural", 80)
    (by norm_num [condition_scores, pcaSystems, systemConditionScore])

/-- Claim C9: `maintenance_cost_estimator` with an empty maintenance_items
list raises (division by `len(maintenance_items)` when computing
average_cost_per_item), and for no input does it return a structured
error payload. -/
theorem mce_empty_items_raises (variance : ℕ → ℚ) (addr : String)
    (property_sqft property_age : ℚ) (loc : String) :
    maintenance_cost_estimator variance addr [] property_sqft property_age loc = .raised ∧
    ∀ items : List String,
      (maintenance_cost_estimator variance addr items property_sqft property_age
          loc).isErrorPayload = false := by
  constructor
  · rfl
  · intro items
    by_cases h : items.length = 0
    · simp [maintenance_cost_estimator, h, MceOutcome.isErrorPayload]
    · simp [maintenance_cost_estimator, h, MceOutcome.isErrorPayload]

/-- The Python-truthiness keep-test for a minimum bound agrees with the
spec-side `minBoundRespected` reading (nonzero minimum enforced, zero or
omitted minimum ignored). -/
lemma minKeep_eq_minBoundRespected (b : Option ℤ) (v : ℤ) :
    (!(optTruthy b && decide (v < b.getD 0))) = minBoundRespected b v := by
  cases b with
  | none => simp [optTruthy, minBoundRespected]
  | some m =>
    by_cases hm : m = 0
    · simp [optTruthy, minBoundRespected, hm]
    · rw [Bool.eq_iff_iff]
      simp [optTruthy, minBoundRespected, hm]
      try omega

/-- The Python-truthiness keep-test for a maximum bound agrees with the
spec-side `maxBoundRespected` reading. -/
lemma maxKeep_eq_maxBoundRespected (b : Option ℤ) (v : ℤ) :
    (!(optTruthy b && decide (v > b.getD 0))) = maxBoundRespected b v := by
  cases b with
  | none => simp [optTruthy, maxBoundRespected]
  | some m =>
    by_cases hm : m = 0
    · simp [optTruthy, maxBoundRespected, hm]
    · rw [Bool.eq_iff_iff]
      simp [optTruthy, maxBoundRespected, hm]
      try omega

/-- Claim C3 (amended): the returned comparable_sales list is the fixed
comp table filtered by exactly those supplied bounds that are non-zero —
every returned comp satisfies all supplied non-zero bounds, an omitted
bound imposes no constraint, and (the amendment) a bound supplied as 0 is
falsy in Python and also imposes no constraint. -/
theorem mls_filter_respects_nonzero_bounds
    (minSqft maxSqft minBedrooms maxBedrooms : Option ℤ) :
    (mls_integration minSqft maxSqft minBedrooms maxBedrooms).comparable_sales =
      mlsComparableSales.filter (fun c =>
        minBoundRespected minSqft c.sqft && maxBoundRespected maxSqft c.sqft &&
        minBoundRespected minBedrooms c.bedrooms && maxBoundRespected maxBedrooms c.bedrooms) := by
  have hfun : mlsKeep minSqft maxSqft minBedrooms maxBedrooms = (fun c =>
      minBoundRespected minSqft c.sqft && maxBoundRespected maxSqft c.sqft &&
      minBoundRespected minBedrooms c.bedrooms && maxBoundRespected maxBedrooms c.bedrooms) := by
    funext c
    rw [mlsKeep, minKeep_eq_minBoundRespected, maxKeep_eq_maxBoundRespected,
      minKeep_eq_minBoundRespected, maxKeep_eq_maxBoundRespected]
  simp [mls_integration, hfun]

/-- Counterexample to claim C3 as stated: supplying max_sqft = 0 filters
nothing (0 is falsy in `if max_sqft and ...`), so all 3 comps come back
and none of them satisfies the supplied bound sqft ≤ 0. -/
theorem mls_zero_max_bound_not_enforced :
    (mls_integration none (some 0) none none).comparable_sales.length = 3 ∧
    ¬ (∀ c ∈ (mls_integration none (some 0) none none).comparable_sales, c.sqft ≤ 0) := by
  decide

/-- Claim C7: the median statistic over a non-empty filtered comp list is
the sorted sale-price list indexed at `length / 2`; concretely, filtering
to the two 3-bedroom comps (an even-length list with prices 450000 and
420000) yields 450000 — the upper-middle element — while the conventional
averaged median of those prices is 435000 ≠ 450000. -/
theorem mls_median_upper_middle :
    (∀ (minSqft maxSqft minBedrooms maxBedrooms : Option ℤ),
      (mls_integration minSqft maxSqft minBedrooms maxBedrooms).comparable_sales ≠ [] →
      (mls_integration minSqft maxSqft minBedrooms maxBedrooms).market_statistics.price_median =
        (((mls_integration minSqft maxSqft minBedrooms maxBedrooms).comparable_sales.map
            (·.sale_price)).insertionSort (· ≤ ·)).getD
          ((mls_integration minSqft maxSqft minBedrooms
            maxBedrooms).comparable_sales.length / 2) 0) ∧
    ((mls_integration none none none (some 3)).comparable_sales.length = 2 ∧
     (mls_integration none none none (some 3)).market_statistics.price_median = 450000 ∧
     conventionalMedian ((mls_integration none none none (some 3)).comparable_sales.map
        (·.sale_price)) = 435000 ∧
     ((450000 : ℚ) ≠ 435000)) := by
  constructor
  · intro a b c d h
    cases hl : mlsComparableSales.filter (mlsKeep a b c d) with
    | nil => exact absurd (by simp [mls_integration, hl]) h
    | cons x xs => simp [mls_integration, hl]
  · refine ⟨by decide, by decide, ?_, by norm_num⟩
    norm_num [mls_integration, mlsComparableSales, mlsKeep, optTruthy, conventionalMedian,
      List.filter, List.insertionSort, List.orderedInsert]

/-- Witness for C7: the even-length instance, median = sorted[len / 2]. -/
theorem mls_median_upper_middle_witness :
    (mls_integration none none none (some 3)).market_statistics.price_median =
      (((mls_integration none none none (some 3)).comparable_sales.map
          (·.sale_price)).insertionSort (· ≤ ·)).getD
        ((mls_integration none none none (some 3)).comparable_sales.length / 2) 0 :=
  mls_median_upper_middle.1 none none none (some 3) (by decide)

/-- A comp contributes no price-per-sqft figure exactly when its direct
`price_per_sqft` is absent or 0 (falsy) and `sale_price / sqft` is not
derivable (one of them absent or 0). -/
lemma avmPpsfValue_eq_none_iff (c : AvmComp) :
    avmPpsfValue c = none ↔
      (c.price_per_sqft.getD 0 = 0 ∧ (c.sale_price = 0 ∨ c.sqft = 0)) := by
  unfold avmPpsfValue
  split_ifs with hp hd
  · simp [hp]
  · simpa [hd.1, hd.2] using hp
  · push_neg at hp hd
    simp only [hp, true_and]
    constructor
    · intro _
      by_cases hs : c.sale_price = 0
      · exact Or.inl hs
      · exact Or.inr (hd hs)
    · intro _; trivial

/-- The usable price-per-sqft list is empty exactly when no comp provides
a figure. -/
lemma avmPpsfValues_eq_nil_iff (comps : List AvmComp) :
    avmPpsfValues comps = [] ↔
      ∀ c ∈ comps, c.price_per_sqft.getD 0 = 0 ∧ (c.sale_price = 0 ∨ c.sqft = 0) := by
  rw [avmPpsfValues, List.filterMap_eq_nil]
  exact forall₂_congr (fun c _ => avmPpsfValue_eq_none_iff c)

/-- Claim C5: `avm_engine` returns a structured error payload exactly when
the comparable_sales list is empty, or when no comp provides either a
(truthy) direct price_per_sqft value or a derivable sale_price/sqft
figure; in every other case no error payload is returned (the call either
succeeds or, for a zero subject sqft, raises — which is not a payload). -/
theorem avm_engine_error_payload_iff (currentYear : ℚ) (pw : ℚ → ℚ → ℚ)
    (property_sqft bedrooms bathrooms lot_size year_built : ℚ) (condition : String)
    (comps : List AvmComp) (market_trend : ℚ) :
    (∃ msg, avm_engine currentYear pw property_sqft bedrooms bathrooms lot_size year_built
        condition comps market_trend = .error msg) ↔
      (comps = [] ∨
       ∀ c ∈ comps, c.price_per_sqft.getD 0 = 0 ∧ (c.sale_price = 0 ∨ c.sqft = 0)) := by
  by_cases h1 : comps = []
  · refine iff_of_true ⟨"No comparable sales data provided", ?_⟩ (Or.inl h1)
    simp [avm_engine, h1]
  · have e1 : comps.isEmpty = false := by simp [List.isEmpty_iff, h1]
    by_cases h2 : avmPpsfValues comps = []
    · have e2 : (avmPpsfValues comps).isEmpty = true := by simp [List.isEmpty_iff, h2]
      rw [avmPpsfValues_eq_nil_iff] at h2
      refine iff_of_true ⟨"No valid price per square foot data available", ?_⟩ (Or.inr h2)
      simp [avm_engine, e1, e2]
    · have e2 : (avmPpsfValues comps).isEmpty = false := by simp [List.isEmpty_iff, h2]
      rw [avmPpsfValues_eq_nil_iff] at h2
      constructor
      · intro hmsg
        obtain ⟨msg, hmsg⟩ := hmsg
        simp only [avm_engine, e1, e2, Bool.false_eq_true, if_false] at hmsg
        split at hmsg <;> simp_all
      · rintro (h | h)
        · exact absurd h h1
        · exact absurd h h2

/-- Witness for C5: the empty comp list yields an error payload. -/
theorem avm_engine_error_payload_iff_witness :
    ∃ msg, avm_engine 2025 (fun _ _ => 1) 1000 3 2 (1/4) 2020 ("Good") [] (2/100)
      = .error msg :=
  (avm_engine_error_payload_iff 2025 (fun _ _ => 1) 1000 3 2 (1/4) 2020 ("Good") []
    (2/100)).mpr (Or.inl rfl)

/-- Counterexample to claim C1 as stated.  First input: one comp sold 30
days ago whose sqft is far from the subject but whose bedroom count
matches — the engine returns confidence 0.4, which is not among the
claim's seven values {0, 0.2, 0.3, 0.5, 0.7, 0.9, 1.0}.  Second input:
the same comp sold today (average recency 0 < 180) — the engine returns
0.2 while the claim's bonus rule (`confidenceScoreSpec`) yields 0.4,
because the code's recency test also requires the average to be truthy. -/
theorem avm_confidence_claim_refuted :
    ((avm_engine 2025 (fun _ _ => 1) 1000 3 2 (1/4) 2020 ("Good") [avmSampleComp]
        (2/100)).confidenceValue = some (2/5) ∧
      (2/5 : ℚ) ∉ claimedConfidenceValues) ∧
    ((avm_engine 2025 (fun _ _ => 1) 1000 3 2 (1/4) 2020 ("Good") [avmSampleCompToday]
        (2/100)).confidenceValue = some (1/5) ∧
      confidenceScoreSpec 1000 3 [avmSampleCompToday] = 2/5) := by
  refine ⟨⟨?_, ?_⟩, ?_, ?_⟩
  · norm_num [avm_engine, avmPpsfValues, avmPpsfValue, avmAvgDaysSinceSale, avmConfidenceScore,
      avmAdjustedPrice, AvmOutcome.confidenceValue, avmSampleComp, condition_multipliers,
      List.filterMap, List.filter, List.isEmpty]
  · norm_num [claimedConfidenceValues]
  · norm_num [avm_engine, avmPpsfValues, avmPpsfValue, avmAvgDaysSinceSale, avmConfidenceScore,
      avmAdjustedPrice, AvmOutcome.confidenceValue, avmSampleCompToday, condition_multipliers,
      List.filterMap, List.filter, List.isEmpty]
  · norm_num [confidenceScoreSpec, avmAvgDaysSinceSale, avmSampleCompToday, List.filter]

/-- The code's confidence score always lies in the nine-value set
{0, 0.2, 0.3, 0.4, 0.5, 0.6, 0.7, 0.8, 1.0}. -/
lemma avmConfidenceScore_mem_values (a b d : ℚ) (comps : List AvmComp) :
    avmConfidenceScore a b d comps ∈ ([0, 1/5, 3/10, 2/5, 1/2, 3/5, 7/10, 4/5, 1] : List ℚ) := by
  unfold avmConfidenceScore
  split_ifs <;> norm_num

/-- Claim C1 (amended): for every non-error, non-raising call, the
confidence score is the exact sum of the four boolean bonuses — with the
recency bonus requiring the average days since sale to be non-zero
(truthy) as well as < 180 — never re-normalized or clamped, and the
reachable values are among {0, 0.2, 0.3, 0.4, 0.5, 0.6, 0.7, 0.8, 1.0}
(0.4, 0.6 and 0.8 are reachable; 0.9 is not). -/
theorem avm_confidence_score_amended (currentYear : ℚ) (pw : ℚ → ℚ → ℚ)
    (property_sqft bedrooms bathrooms lot_size year_built : ℚ) (condition : String)
    (comps : List AvmComp) (market_trend : ℚ)
    (hsq : property_sqft ≠ 0) (hne : comps ≠ []) (hp : avmPpsfValues comps ≠ []) :
    ∃ r, avm_engine currentYear pw property_sqft bedrooms bathrooms lot_size year_built
        condition comps market_trend = .ok r ∧
      r.confidence_score =
        (if 3 ≤ comps.length then (3/10 : ℚ) else 0)
        + (if avmAvgDaysSinceSale comps ≠ 0 ∧ avmAvgDaysSinceSale comps < 180
            then (2/10 : ℚ) else 0)
        + (if 2 ≤ (comps.filter (fun c => |c.sqft - property_sqft| / property_sqft < 1/5)).length
            then (3/10 : ℚ) else 0)
        + (if 1 ≤ (comps.filter (fun c => c.bedrooms = bedrooms)).length
            then (2/10 : ℚ) else 0) ∧
      r.confidence_score ∈ ([0, 1/5, 3/10, 2/5, 1/2, 3/5, 7/10, 4/5, 1] : List ℚ) := by
  have e1 : comps.isEmpty = false := by simp [List.isEmpty_iff, hne]
  have e2 : (avmPpsfValues comps).isEmpty = false := by simp [List.isEmpty_iff, hp]
  simp only [avm_engine, e1, e2, Bool.false_eq_true, if_false, if_neg hsq]
  exact ⟨_, rfl, rfl, avmConfidenceScore_mem_values _ _ _ _⟩

/-- Witness for the amended C1 at a concrete input. -/
theorem avm_confidence_score_amended_witness :
    ∃ r, avm_engine 2025 (fun _ _ => 1) 1000 3 2 (1/4) 2020 ("Good") [avmSampleComp]
        (2/100) = .ok r ∧
      r.confidence_score =
        (if 3 ≤ ([avmSampleComp] : List AvmComp).length then (3/10 : ℚ) else 0)
        + (if avmAvgDaysSinceSale [avmSampleComp] ≠ 0 ∧ avmAvgDaysSinceSale [avmSampleComp] < 180
            then (2/10 : ℚ) else 0)
        + (if 2 ≤ (([avmSampleComp] : List AvmComp).filter
              (fun c => |c.sqft - 1000| / 1000 < 1/5)).length
            then (3/10 : ℚ) else 0)
        + (if 1 ≤ (([avmSampleComp] : List AvmComp).filter (fun c => c.bedrooms = 3)).length
            then (2/10 : ℚ) else 0) ∧
      r.confidence_score ∈ ([0, 1/5, 3/10, 2/5, 1/2, 3/5, 7/10, 4/5, 1] : List ℚ) :=
  avm_confidence_score_amended 2025 (fun _ _ => 1) 1000 3 2 (1/4) 2020 ("Good") [avmSampleComp]
    (2/100) (by norm_num) (by simp)
    (by norm_num [avmPpsfValues, avmPpsfValue, avmSampleComp]; decide)

/-- Claim C4: for every non-error, non-raising call, the final valuation
is 0.4 × (price-per-sqft method) + 0.3 × (regression method) + 0.3 ×
(adjusted-comparables method), where the price-per-sqft method value is
subject sqft × average comp price-per-sqft × condition multiplier × age
multiplier max(0.85, 1 − 0.005·age) × (1 + market_trend) ^ (average days
since comp sale / 365) (the real power abstracted as `pw`). -/
theorem avm_final_valuation_formula (currentYear : ℚ) (pw : ℚ → ℚ → ℚ)
    (property_sqft bedrooms bathrooms lot_size year_built : ℚ) (condition : String)
    (comps : List AvmComp) (market_trend : ℚ)
    (hsq : property_sqft ≠ 0) (hne : comps ≠ []) (hp : avmPpsfValues comps ≠ []) :
    ∃ r, avm_engine currentYear pw property_sqft bedrooms bathrooms lot_size year_built
        condition comps market_trend = .ok r ∧
      r.final_valuation = (4/10) * r.price_per_sqft_valuation
        + (3/10) * r.regression_valuation + (3/10) * r.adjusted_sales_valuation ∧
      r.price_per_sqft_valuation = property_sqft
        * ((avmPpsfValues comps).sum / ((avmPpsfValues comps).length : ℚ))
        * ((condition_multipliers.lookup condition).getD 1)
        * max (85/100) (1 - (currentYear - year_built) * (5/1000))
        * pw (1 + market_trend) (avmAvgDaysSinceSale comps / 365) ∧
      r.avg_price_per_sqft = (avmPpsfValues comps).sum / ((avmPpsfValues comps).length : ℚ) := by
  have e1 : comps.isEmpty = false := by simp [List.isEmpty_iff, hne]
  have e2 : (avmPpsfValues comps).isEmpty = false := by simp [List.isEmpty_iff, hp]
  simp only [avm_engine, e1, e2, Bool.false_eq_true, if_false, if_neg hsq]
  refine ⟨_, rfl, by ring, rfl, rfl⟩

/-- Witness for C4 at a concrete input. -/
theorem avm_final_valuation_formula_witness :
    ∃ r, avm_engine 2025 (fun _ _ => 1) 2200 4 3 (3/10) 2015 ("Excellent") [avmSampleComp]
        (2/100) = .ok r ∧
      r.final_valuation = (4/10) * r.price_per_sqft_valuation
        + (3/10) * r.regression_valuation + (3/10) * r.adjusted_sales_valuation ∧
      r.price_per_sqft_valuation = 2200
        * ((avmPpsfValues [avmSampleComp]).sum / ((avmPpsfValues [avmSampleComp]).length : ℚ))
        * ((condition_multipliers.lookup ("Excellent")).getD 1)
        * max (85/100) (1 - ((2025:ℚ) - 2015) * (5/1000))
        * (fun (_ _ : ℚ) => (1:ℚ)) (1 + 2/100) (avmAvgDaysSinceSale [avmSampleComp] / 365) ∧
      r.avg_price_per_sqft = (avmPpsfValues [avmSampleComp]).sum
        / ((avmPpsfValues [avmSampleComp]).length : ℚ) :=
  avm_final_valuation_formula 2025 (fun _ _ => 1) 2200 4 3 (3/10) 2015 ("Excellent")
    [avmSampleComp] (2/100) (by norm_num) (by simp)
    (by norm_num [avmPpsfValues, avmPpsfValue, avmSampleComp]; decide)

/-- The generated trend series has one point per month of the window. -/
lemma trendSeries_length (pw : ℚ → ℚ → ℚ) (noise : ℕ → ℚ) (monthOf : ℕ → Fin 12)
    (analysis_period : ℕ) (include_seasonal : Bool) :
    (trendSeries pw noise monthOf analysis_period include_seasonal).length = analysis_period := by
  simp [trendSeries]

/-- Point `i` of the generated series is offset `30 * i` days into the past. -/
lemma trendSeries_daysAgo_getElem (pw : ℚ → ℚ → ℚ) (noise : ℕ → ℚ) (monthOf : ℕ → Fin 12)
    (analysis_period : ℕ) (include_seasonal : Bool) (i : ℕ)
    (h : i < (trendSeries pw noise monthOf analysis_period include_seasonal).length) :
    ((trendSeries pw noise monthOf analysis_period include_seasonal)[i]).daysAgo
      = 30 * (i : ℤ) := by
  simp [trendSeries]

/-- Claim C2 (amended): for a window larger than 12 months the returned
price_data is the final 12 elements of the generated series
(`price_data[-12:]`), and since the series is generated newest-first,
every returned point is at least `30 * (period - 12)` days in the past —
these are the 12 oldest points, not the 12 most recent. -/
theorem market_trend_returns_oldest12 (pw : ℚ → ℚ → ℚ) (noise : ℕ → ℚ) (monthOf : ℕ → Fin 12)
    (sqrtQ : ℚ → ℚ) (analysis_period : ℕ) (include_seasonal : Bool)
    (h : 12 < analysis_period) :
    (market_trend_analyzer pw noise monthOf sqrtQ analysis_period include_seasonal).price_data =
      (trendSeries pw noise monthOf analysis_period include_seasonal).drop
        (analysis_period - 12) ∧
    ∀ p ∈ (market_trend_analyzer pw noise monthOf sqrtQ analysis_period
        include_seasonal).price_data,
      30 * ((analysis_period : ℤ) - 12) ≤ p.daysAgo := by
  have h1 : (market_trend_analyzer pw noise monthOf sqrtQ analysis_period
      include_seasonal).price_data =
      (trendSeries pw noise monthOf analysis_period include_seasonal).drop
        (analysis_period - 12) := by
    simp only [market_trend_analyzer]
    rw [trendSeries_length]
  refine ⟨h1, ?_⟩
  intro p hp
  rw [h1, List.mem_iff_getElem] at hp
  obtain ⟨j, hj, hget⟩ := hp
  rw [List.getElem_drop] at hget
  have hlt : analysis_period - 12 + j <
      (trendSeries pw noise monthOf analysis_period include_seasonal).length := by
    simp only [List.length_drop] at hj
    omega
  rw [← hget, trendSeries_daysAgo_getElem pw noise monthOf analysis_period include_seasonal
    (analysis_period - 12 + j) hlt]
  push_cast
  omega

/-- Witness for the amended C2 at a 13-month window. -/
theorem market_trend_returns_oldest12_witness :
    (market_trend_analyzer (fun _ _ => 1) (fun _ => 1) (fun _ => 0) (fun _ => 0) 13
        true).price_data =
      (trendSeries (fun _ _ => 1) (fun _ => 1) (fun _ => 0) 13 true).drop 1 ∧
    ∀ p ∈ (market_trend_analyzer (fun _ _ => 1) (fun _ => 1) (fun _ => 0) (fun _ => 0) 13
        true).price_data,
      30 * ((13 : ℤ) - 12) ≤ p.daysAgo :=
  market_trend_returns_oldest12 (fun _ _ => 1) (fun _ => 1) (fun _ => 0) (fun _ => 0) 13 true
    (by decide)

/-- Counterexample to claim C2 as stated: with a 13-month window (constant
noise and power oracles), the returned points sit 30..360 days in the
past, while the 12 generated points closest to the current date (the
series prefix) sit 0..330 days in the past — the returned list is not the
12 most recent points. -/
theorem market_trend_not_most_recent_12 :
    ((market_trend_analyzer (fun _ _ => 1) (fun _ => 1) (fun _ => 0) (fun _ => 0) 13
        true).price_data.map (·.daysAgo)
      = [30, 60, 90, 120, 150, 180, 210, 240, 270, 300, 330, 360]) ∧
    (((trendSeries (fun _ _ => 1) (fun _ => 1) (fun _ => 0) 13 true).take 12).map (·.daysAgo)
      = [0, 30, 60, 90, 120, 150, 180, 210, 240, 270, 300, 330]) ∧
    (([30, 60, 90, 120, 150, 180, 210, 240, 270, 300, 330, 360] : List ℤ)
      ≠ [0, 30, 60, 90, 120, 150, 180, 210, 240, 270, 300, 330]) := by
  refine ⟨by decide, by decide, by decide⟩

/-- Claim C6: for every call with a non-empty comp list, a comp whose sale
price is 0 makes the computation raise (unguarded division), and in every
successful result each analyzed comp's adjustment_percentage equals its
total_adjustment divided by that comp's sale_price, times 100. -/
theorem comps_adjustment_percentage_division (currentYear : ℚ) (sqrtQ : ℚ → ℚ)
    (subject_property : CompsSubject) (comparable_sales : List CompsComp)
    (adjustment_factors : Option AdjFactors)
    (hne : comparable_sales ≠ []) :
    ((∃ c ∈ comparable_sales, c.sale_price = 0) →
      comps_analyzer currentYear sqrtQ subject_property comparable_sales adjustment_factors
        = .raised) ∧
    (∀ r, comps_analyzer currentYear sqrtQ subject_property comparable_sales adjustment_factors
        = .ok r →
      ∀ a ∈ r.analyzed_comparables,
        a.adjustment_percentage = a.total_adjustment / a.original.sale_price * 100) := by
  have e1 : comparable_sales.isEmpty = false := by simp [List.isEmpty_iff, hne]
  by_cases hz : comparable_sales.any (fun c => c.sale_price = 0)
  · constructor
    · intro _
      simp [comps_analyzer, e1, hz]
    · intro r hr
      simp [comps_analyzer, e1, hz] at hr
  · constructor
    · intro hex
      obtain ⟨c, hc, hcz⟩ := hex
      exact absurd (List.any_eq_true.2 ⟨c, hc, by simp [hcz]⟩) hz
    · intro r hr
      have hz' : (comparable_sales.any fun c => c.sale_price = 0) = false := by
        simpa using hz
      simp only [comps_analyzer, e1, hz', Bool.false_eq_true, if_false] at hr
      rw [CompsOutcome.ok.injEq] at hr
      subst hr
      intro a ha
      dsimp only at ha
      rw [List.mem_map] at ha
      obtain ⟨c, hc, rfl⟩ := ha
      rfl

/-- Witness for C6: a single comp with sale price 0 makes the call raise. -/
theorem comps_adjustment_percentage_division_witness :
    comps_analyzer 2025 (fun _ => 0) {} [{ sale_price := 0 }] none = .raised :=
  (comps_adjustment_percentage_division 2025 (fun _ => 0) {} [{ sale_price := 0 }] none
      (by simp)).1 ⟨{ sale_price := 0 }, by simp, rfl⟩
